import Mathlib

/-!
Shallow embedding of the todo-plus task tracker core (task/category data model,
the application-state reducer, derived filtering/sorting view, storage-layer
operations and the share formatters), together with theorems settling the
frozen specification claims.

Timestamps (`Date` values, `Date.now()`) are modelled as natural numbers; each
effectful operation that reads the clock takes the current time as an explicit
`now` argument.  `crypto.randomUUID()` is modelled by passing the generated
identifier explicitly (and, for the uniqueness statement, by an injective
token generator faithful to the spec's "random unique token" contract).
JS string `localeCompare` is modelled as code-point lexicographic comparison,
and `Array.prototype.sort` (stable per ECMAScript) as stable insertion sort.
-/

namespace TodoPlus

/-- Task priority: 'high' | 'medium' | 'low' (src/types/index.ts). -/
inductive Priority where
  | high
  | medium
  | low
deriving DecidableEq

/-- Task status: 'todo' | 'in-progress' | 'completed' (src/types/index.ts). -/
inductive TaskStatus where
  | todo
  | inProgress
  | completed
deriving DecidableEq

/-- The Task data model (src/types/index.ts, interface Task). -/
structure Task where
  id : String
  title : String
  description : String
  priority : Priority
  category : String
  status : TaskStatus
  completionComment : String
  createdAt : Nat
  updatedAt : Nat
  completedAt : Option Nat
  order : Nat
  tags : List String
deriving DecidableEq

/-- The Category data model (src/types/index.ts, interface Category). -/
structure Category where
  id : String
  name : String
  color : String
  description : Option String
  createdAt : Nat
  taskCount : Nat
deriving DecidableEq

/-- Notification sub-record of Settings (src/types/index.ts). -/
structure NotificationSettings where
  enabled : Bool
  reminderTime : Nat
deriving DecidableEq

/-- Sort key: 'createdAt' | 'priority' | 'title' | 'dueDate' (src/types/index.ts). -/
inductive SortBy where
  | createdAt
  | priority
  | title
  | dueDate
deriving DecidableEq

/-- Sort direction: 'asc' | 'desc'. -/
inductive SortOrder where
  | asc
  | desc
deriving DecidableEq

/-- Theme: 'light' | 'dark'. -/
inductive Theme where
  | light
  | dark
deriving DecidableEq

/-- The Settings data model (src/types/index.ts, interface Settings). -/
structure Settings where
  theme : Theme
  defaultPriority : Priority
  sortBy : SortBy
  sortOrder : SortOrder
  showCompleted : Bool
  autoSave : Bool
  notifications : NotificationSettings
deriving DecidableEq

/-- The active filter criteria (src/types/index.ts, UIState.filter).
`status`/`priority` use `none` for the 'all' sentinel of the union types
`Task['status'] | 'all'` and `Task['priority'] | 'all'`; `category` is a plain
string compared against the literal "all" exactly as the source does. -/
structure Filter where
  status : Option TaskStatus
  category : String
  priority : Option Priority
  searchQuery : String
deriving DecidableEq

/-- Ephemeral UI state (src/types/index.ts, interface UIState). -/
structure UIState where
  isTaskFormOpen : Bool
  isCategoryManagerOpen : Bool
  editingTask : Option Task
  filter : Filter
deriving DecidableEq

/-- The application state tree (src/context/TodoContext.tsx, interface AppState). -/
structure AppState where
  tasks : List Task
  categories : List Category
  settings : Settings
  ui : UIState
deriving DecidableEq

/-- CreateTaskInput = Omit of Task without id/createdAt/updatedAt/completedAt/order
(src/types/index.ts). -/
structure CreateTaskInput where
  title : String
  description : String
  priority : Priority
  category : String
  status : TaskStatus
  completionComment : String
  tags : List String
deriving DecidableEq

/-- UpdateTaskInput = Partial Omit of Task without id/createdAt
(src/types/index.ts).  A `none` field models an absent key of the partial
object, so the object spread in the reducer leaves the task's field alone. -/
structure UpdateTaskInput where
  title : Option String := none
  description : Option String := none
  priority : Option Priority := none
  category : Option String := none
  status : Option TaskStatus := none
  completionComment : Option String := none
  updatedAt : Option Nat := none
  completedAt : Option (Option Nat) := none
  order : Option Nat := none
  tags : Option (List String) := none
deriving DecidableEq

/-- Partial Settings payload of UPDATE_SETTINGS. -/
structure SettingsPatch where
  theme : Option Theme := none
  defaultPriority : Option Priority := none
  sortBy : Option SortBy := none
  sortOrder : Option SortOrder := none
  showCompleted : Option Bool := none
  autoSave : Option Bool := none
  notifications : Option NotificationSettings := none
deriving DecidableEq

/-- Partial filter payload of SET_FILTER. -/
structure FilterPatch where
  status : Option (Option TaskStatus) := none
  category : Option String := none
  priority : Option (Option Priority) := none
  searchQuery : Option String := none
deriving DecidableEq

/-- Partial UIState payload of SET_UI_STATE. -/
structure UIStatePatch where
  isTaskFormOpen : Option Bool := none
  isCategoryManagerOpen : Option Bool := none
  editingTask : Option (Option Task) := none
  filter : Option Filter := none
deriving DecidableEq

/-- The closed action vocabulary of the reducer (src/context/TodoContext.tsx,
type AppAction). -/
inductive AppAction where
  | setTasks (payload : List Task)
  | addTask (payload : Task)
  | updateTask (id : String) (updates : UpdateTaskInput)
  | deleteTask (id : String)
  | reorderTasks (payload : List Task)
  | updateTaskStatus (id : String) (status : TaskStatus) (completionComment : Option String)
  | setCategories (payload : List Category)
  | addCategory (payload : Category)
  | updateCategory (payload : Category)
  | deleteCategory (id : String)
  | setSettings (payload : Settings)
  | updateSettings (payload : SettingsPatch)
  | setUIState (payload : UIStatePatch)
  | openTaskForm (payload : Option Task)
  | closeTaskForm
  | openCategoryManager
  | closeCategoryManager
  | setFilter (payload : FilterPatch)
deriving DecidableEq

/-- Object spread of a Partial update over a task:
`[...] { ...task, ...updates }` — a present key overrides the field. -/
def applyTaskUpdates (task : Task) (u : UpdateTaskInput) : Task :=
  { id := task.id
    title := u.title.getD task.title
    description := u.description.getD task.description
    priority := u.priority.getD task.priority
    category := u.category.getD task.category
    status := u.status.getD task.status
    completionComment := u.completionComment.getD task.completionComment
    createdAt := task.createdAt
    updatedAt := u.updatedAt.getD task.updatedAt
    completedAt := u.completedAt.getD task.completedAt
    order := u.order.getD task.order
    tags := u.tags.getD task.tags }

/-- Object spread of a Partial settings patch: `{ ...settings, ...payload }`. -/
def applySettingsPatch (s : Settings) (p : SettingsPatch) : Settings :=
  { theme := p.theme.getD s.theme
    defaultPriority := p.defaultPriority.getD s.defaultPriority
    sortBy := p.sortBy.getD s.sortBy
    sortOrder := p.sortOrder.getD s.sortOrder
    showCompleted := p.showCompleted.getD s.showCompleted
    autoSave := p.autoSave.getD s.autoSave
    notifications := p.notifications.getD s.notifications }

/-- Object spread of a Partial filter patch: `{ ...state.ui.filter, ...payload }`. -/
def applyFilterPatch (f : Filter) (p : FilterPatch) : Filter :=
  { status := p.status.getD f.status
    category := p.category.getD f.category
    priority := p.priority.getD f.priority
    searchQuery := p.searchQuery.getD f.searchQuery }

/-- Object spread of a Partial UI-state patch: `{ ...state.ui, ...payload }`. -/
def applyUIStatePatch (u : UIState) (p : UIStatePatch) : UIState :=
  { isTaskFormOpen := p.isTaskFormOpen.getD u.isTaskFormOpen
    isCategoryManagerOpen := p.isCategoryManagerOpen.getD u.isCategoryManagerOpen
    editingTask := p.editingTask.getD u.editingTask
    filter := p.filter.getD u.filter }

/-- JS `x || ''` on the optional completionComment payload of
UPDATE_TASK_STATUS: undefined and the empty string are falsy, so both give ''. -/
def jsOrEmpty (s : Option String) : String :=
  match s with
  | some c => if c = "" then "" else c
  | none => ""

/-- The pure reducer (src/context/TodoContext.tsx, function appReducer).
`now` is the value of `new Date()` during this dispatch. -/
def appReducer (state : AppState) (action : AppAction) (now : Nat) : AppState :=
  match action with
  | .setTasks payload => { state with tasks := payload }
  | .addTask payload => { state with tasks := state.tasks ++ [payload] }
  | .updateTask id updates =>
      { state with
        tasks := state.tasks.map fun task =>
          if task.id = id then { applyTaskUpdates task updates with updatedAt := now }
          else task }
  | .deleteTask id =>
      { state with tasks := state.tasks.filter fun task => task.id != id }
  | .reorderTasks payload => { state with tasks := payload }
  | .updateTaskStatus id status comment =>
      { state with
        tasks := state.tasks.map fun task =>
          if task.id = id then
            { task with
              status := status
              completionComment :=
                if status = .completed then jsOrEmpty comment else task.completionComment
              completedAt := if status = .completed then some now else none
              updatedAt := now }
          else task }
  | .setCategories payload => { state with categories := payload }
  | .addCategory payload => { state with categories := state.categories ++ [payload] }
  | .updateCategory payload =>
      { state with
        categories := state.categories.map fun category =>
          if category.id = payload.id then payload else category }
  | .deleteCategory id =>
      { state with categories := state.categories.filter fun category => category.id != id }
  | .setSettings payload => { state with settings := payload }
  | .updateSettings payload =>
      { state with settings := applySettingsPatch state.settings payload }
  | .setUIState payload => { state with ui := applyUIStatePatch state.ui payload }
  | .openTaskForm payload =>
      { state with ui := { state.ui with isTaskFormOpen := true, editingTask := payload } }
  | .closeTaskForm =>
      { state with ui := { state.ui with isTaskFormOpen := false, editingTask := none } }
  | .openCategoryManager =>
      { state with ui := { state.ui with isCategoryManagerOpen := true } }
  | .closeCategoryManager =>
      { state with ui := { state.ui with isCategoryManagerOpen := false } }
  | .setFilter payload =>
      { state with ui := { state.ui with filter := applyFilterPatch state.ui.filter payload } }

/-- Task creation (src/types/index.ts, createTask).  The generated
`crypto.randomUUID()` value and `Date.now()` are explicit arguments. -/
def createTask (input : CreateTaskInput) (generatedId : String) (now : Nat) : Task :=
  { id := generatedId
    title := input.title
    description := input.description
    priority := input.priority
    category := input.category
    status := input.status
    completionComment := input.completionComment
    createdAt := now
    updatedAt := now
    completedAt := none
    order := now
    tags := input.tags }

namespace TaskStorage

/-- Storage-layer status transition (useStorage hooks file, updateTaskStatus):
maps over the stored tasks; on the matching id it writes the new status, sets
completionComment to the supplied comment only when completing (default
argument '' is already applied by the caller model), stamps completedAt with
the current time when completing and clears it otherwise. -/
def updateTaskStatus (tasks : List Task) (taskId : String) (status : TaskStatus)
    (completionComment : String) (now : Nat) : List Task :=
  tasks.map fun task =>
    if task.id = taskId then
      { task with
        status := status
        completionComment :=
          if status = .completed then completionComment else task.completionComment
        completedAt := if status = .completed then some now else none
        updatedAt := now }
    else task

/-- Storage-layer reorder (useStorage hooks file, reorderTasks): maps each
task of the caller-supplied list to a copy whose order field is its index in
that list and whose updatedAt is refreshed. -/
def reorderTasks (reorderedTasks : List Task) (now : Nat) : List Task :=
  reorderedTasks.enum.map fun p => { p.2 with order := p.1, updatedAt := now }

end TaskStorage

namespace CategoryStorage

/-- Storage-layer category deletion (useStorage hooks file, deleteCategory):
the reserved default category is refused (warn and return, list untouched);
otherwise the category is filtered out of the stored list. -/
def deleteCategory (categories : List Category) (categoryId : String) : List Category :=
  if categoryId = "default" then categories
  else categories.filter fun category => category.id != categoryId

end CategoryStorage

/-- The UPDATE_TASK payload dispatched for each reassigned task during
category deletion (useTasks hooks file, useCategories.deleteCategory):
`updates = category to 'default'`. -/
def reassignToDefault : UpdateTaskInput := { category := some "default" }

namespace UseCategories

/-- Application-level category deletion (useTasks hooks file,
useCategories.deleteCategory).  Deleting the reserved 'default' category
throws before any dispatch, leaving the application state unchanged; this is
modelled by returning `none`.  Otherwise every task referencing the category
is reassigned to 'default' through one UPDATE_TASK dispatch per affected task
and the category is removed by a DELETE_CATEGORY dispatch. -/
def deleteCategory (state : AppState) (id : String) (now : Nat) : Option AppState :=
  if id = "default" then none
  else
    let tasksToUpdate := state.tasks.filter fun task => task.category == id
    let afterReassign := tasksToUpdate.foldl
      (fun st task => appReducer st (.updateTask task.id reassignToDefault) now) state
    some (appReducer afterReassign (.deleteCategory id) now)

end UseCategories

/-- Display label and emoji of a status (src/types/index.ts, statusConfig). -/
structure StatusInfo where
  label : String
  color : String
  emoji : String

/-- Status display configuration (src/types/index.ts, statusConfig). -/
def statusConfig : TaskStatus → StatusInfo
  | .todo => { label := "未実行", color := "#a4b0be", emoji := "📝" }
  | .inProgress => { label := "実行中", color := "#3742fa", emoji := "⚡" }
  | .completed => { label := "完了", color := "#2ed573", emoji := "✅" }

/-- JS `Array.prototype.join(' ')`. -/
def joinSpace : List String → String
  | [] => ""
  | [s] => s
  | s :: rest => s ++ " " ++ joinSpace rest

/-- Share formatter for a single task (src/hooks/useTwitterShare.ts,
formatTaskForShare): status emoji, title and status label, an optional
hashtag block (one #tag per task tag) when the tag list is non-empty, an
optional comment line when the task is completed with a non-empty (truthy)
completionComment, and the fixed application hashtag suffix. -/
def formatTaskForShare (task : Task) : String :=
  let text := (statusConfig task.status).emoji ++ " " ++ task.title ++ " - " ++
    (statusConfig task.status).label
  let text2 :=
    if 0 < task.tags.length then
      text ++ "\n\n" ++ joinSpace (task.tags.map fun tag => "#" ++ tag)
    else text
  let text3 :=
    if task.status = .completed ∧ task.completionComment ≠ "" then
      text2 ++ "\n\n💭 " ++ task.completionComment
    else text2
  text3 ++ " #TodoApp #生産性向上"

/-- Completion-rate computation of the progress report
(src/hooks/useTwitterShare.ts, formatProgressReport): the guarded ternary
`totalTasks gt 0 ? Math.round(completedTasks / totalTasks * 100) : 0`,
with JS number division modelled exactly on the rationals and `Math.round`
as round-half-up. -/
def completionRate (totalTasks completedTasks : Nat) : Int :=
  if 0 < totalTasks then round ((completedTasks : ℚ) / (totalTasks : ℚ) * 100) else 0

/-- Progress-report formatter (src/hooks/useTwitterShare.ts,
formatProgressReport). -/
def formatProgressReport (totalTasks completedTasks inProgressTasks : Nat) : String :=
  "📊 今日の進捗報告\n" ++
  "✅ 完了: " ++ toString completedTasks ++ "件\n" ++
  "⚡ 実行中: " ++ toString inProgressTasks ++ "件\n" ++
  "📝 全体: " ++ toString totalTasks ++ "件\n" ++
  "🎯 達成率: " ++ toString (completionRate totalTasks completedTasks) ++ "%\n\n" ++
  "#TodoApp #生産性向上 #進捗報告"

/-- JS `String.prototype.toLowerCase()`, modelled character-wise. -/
def jsToLower (s : String) : String :=
  String.mk (s.data.map Char.toLower)

/-- JS `String.prototype.trim()`: strip leading and trailing whitespace. -/
def jsTrim (s : String) : String :=
  String.mk (((s.data.dropWhile Char.isWhitespace).reverse.dropWhile
    Char.isWhitespace).reverse)

/-- JS `String.prototype.localeCompare`, modelled as code-point lexicographic
comparison returning a negative, zero or positive number. -/
def localeCompare (a b : String) : Int :=
  if a < b then -1 else if b < a then 1 else 0

/-- The numeric priority ranking used by the sort comparator
(useTasks hooks file, useFilteredTasks): high 3, medium 2, low 1. -/
def priorityOrder : Priority → Int
  | .high => 3
  | .medium => 2
  | .low => 1

/-- The sort comparator of the derived view (useTasks hooks file,
useFilteredTasks): switch on settings.sortBy with the insertion-order field
as the default branch, then negated when sortOrder is 'asc'. -/
def taskComparison (settings : Settings) (a b : Task) : Int :=
  let comparison : Int :=
    match settings.sortBy with
    | .title => localeCompare a.title b.title
    | .priority => priorityOrder b.priority - priorityOrder a.priority
    | .createdAt => (b.createdAt : Int) - (a.createdAt : Int)
    | .dueDate => (a.order : Int) - (b.order : Int)
  match settings.sortOrder with
  | .desc => comparison
  | .asc => -comparison

/-- The "a sorts no later than b" relation induced by the comparator; the
ECMAScript stable sort puts a before b exactly when the comparator is
non-positive. -/
def taskLe (settings : Settings) (a b : Task) : Prop :=
  taskComparison settings a b ≤ 0

instance (settings : Settings) : DecidableRel (taskLe settings) :=
  fun a b => inferInstanceAs (Decidable (taskComparison settings a b ≤ 0))

/-- JS `title.toLowerCase().includes(query)` test over title, description and
tags (useTasks hooks file, useFilteredTasks search filter); `query` is the
already lower-cased search string. -/
def matchesSearch (query : String) (task : Task) : Bool :=
  decide (query.data <:+: (jsToLower task.title).data) ||
  decide (query.data <:+: (jsToLower task.description).data) ||
  task.tags.any fun tag => decide (query.data <:+: (jsToLower tag).data)

/-- The five sequential filter passes of the derived view (useTasks hooks
file, useFilteredTasks): status, category, priority, search query, and the
show-completed setting, each skipped when inactive. -/
def applyFilters (tasks : List Task) (filter : Filter) (settings : Settings) : List Task :=
  let f1 :=
    match filter.status with
    | none => tasks
    | some st => tasks.filter fun task => task.status == st
  let f2 :=
    if filter.category = "all" then f1
    else f1.filter fun task => task.category == filter.category
  let f3 :=
    match filter.priority with
    | none => f2
    | some p => f2.filter fun task => task.priority == p
  let f4 :=
    if jsTrim filter.searchQuery = "" then f3
    else f3.filter (matchesSearch (jsToLower filter.searchQuery))
  if settings.showCompleted then f4 else f4.filter fun task => task.status != .completed

/-- The derived view (useTasks hooks file, useFilteredTasks.filteredTasks):
the filter passes followed by the stable sort under the comparator. -/
def filteredTasks (tasks : List Task) (filter : Filter) (settings : Settings) : List Task :=
  List.insertionSort (taskLe settings) (applyFilters tasks filter settings)

/-- Modelled from the spec: `crypto.randomUUID()` is a browser primitive, not
code of this repository.  Section 4.2 of the spec fixes its contract —
"Identifier generation uses a random unique token at creation time; not
reused" — which is modelled as an injective generator of non-empty tokens
indexed by the creation event. -/
def randomUUID (eventIndex : Nat) : String :=
  "uuid-" ++ String.mk (List.replicate eventIndex (Char.ofNat 120))

/-- The completedAt/status task invariant of the data model: completedAt is
non-null iff status = completed. -/
def TaskInvariant (tasks : List Task) : Prop :=
  ∀ t ∈ tasks, (t.completedAt ≠ none ↔ t.status = .completed)

instance instDecidableTaskInvariant (tasks : List Task) : Decidable (TaskInvariant tasks) :=
  inferInstanceAs (Decidable (∀ t ∈ tasks, (t.completedAt ≠ none ↔ t.status = .completed)))

/-- Side condition on an action's payload under which the reducer preserves
the completedAt/status invariant: task lists carried verbatim into the state
must satisfy it themselves, and UPDATE_TASK updates must leave both status
and completedAt unspecified. -/
def PayloadInvariant : AppAction → Prop
  | .setTasks payload => TaskInvariant payload
  | .addTask payload => payload.completedAt ≠ none ↔ payload.status = .completed
  | .reorderTasks payload => TaskInvariant payload
  | .updateTask _ updates => updates.status = none ∧ updates.completedAt = none
  | _ => True

/-- Default-valued settings record used by concrete examples
(src/types/index.ts, defaultSettings). -/
def defaultSettings : Settings :=
  { theme := .light
    defaultPriority := .medium
    sortBy := .createdAt
    sortOrder := .desc
    showCompleted := true
    autoSave := true
    notifications := { enabled := false, reminderTime := 60 } }

/-- The initial all-pass filter (src/context/TodoContext.tsx, initialUIState). -/
def initialFilter : Filter :=
  { status := none, category := "all", priority := none, searchQuery := "" }

/-- The initial UI state (src/context/TodoContext.tsx, initialUIState). -/
def initialUIState : UIState :=
  { isTaskFormOpen := false
    isCategoryManagerOpen := false
    editingTask := none
    filter := initialFilter }

/-- Concrete todo task used by counterexamples and witnesses. -/
def exTask1 : Task :=
  { id := "t1"
    title := "T"
    description := ""
    priority := .medium
    category := "default"
    status := .todo
    completionComment := ""
    createdAt := 0
    updatedAt := 0
    completedAt := none
    order := 0
    tags := [] }

/-- Concrete application state holding `exTask1`. -/
def exState1 : AppState :=
  { tasks := [exTask1]
    categories := []
    settings := defaultSettings
    ui := initialUIState }

/-- C1 (counterexample): the claim quantifies over every reducer action,
including UPDATE_TASK with arbitrary UpdateTaskInput updates.  Dispatching
UPDATE_TASK with updates that set status to completed (and say nothing about
completedAt) onto an invariant-satisfying state yields a completed task whose
completedAt is still null, so the invariant does not survive. -/
theorem updateTask_breaks_completedAt_invariant :
    TaskInvariant exState1.tasks ∧
    ¬ TaskInvariant
      (appReducer exState1 (.updateTask "t1" { status := some .completed }) 5).tasks := by
  decide

/-- C1 (amended): appReducer preserves the completedAt/status invariant for
every action whose payload is invariant-compatible (task lists installed
verbatim by SET_TASKS/ADD_TASK/REORDER_TASKS satisfy the invariant, and
UPDATE_TASK updates touch neither status nor completedAt); all remaining
actions, UPDATE_TASK_STATUS and DELETE_TASK included, preserve it
unconditionally. -/
theorem appReducer_preserves_completedAt_invariant (state : AppState) (action : AppAction)
    (now : Nat) (hstate : TaskInvariant state.tasks) (haction : PayloadInvariant action) :
    TaskInvariant (appReducer state action now).tasks := by
  cases action with
  | setTasks payload => exact haction
  | addTask payload =>
      intro t ht
      rcases List.mem_append.mp ht with h | h
      · exact hstate t h
      · rw [List.mem_singleton.mp h]; exact haction
  | updateTask id updates =>
      intro t ht
      simp only [appReducer, List.mem_map] at ht
      obtain ⟨t0, ht0, rfl⟩ := ht
      by_cases h : t0.id = id
      · simp only [h, if_true, if_pos]
        simpa [applyTaskUpdates, haction.1, haction.2] using hstate t0 ht0
      · simpa [h] using hstate t0 ht0
  | deleteTask id =>
      intro t ht
      exact hstate t (List.mem_filter.mp ht).1
  | reorderTasks payload => exact haction
  | updateTaskStatus id status comment =>
      intro t ht
      simp only [appReducer, List.mem_map] at ht
      obtain ⟨t0, ht0, rfl⟩ := ht
      by_cases h : t0.id = id
      · by_cases hc : status = .completed <;> simp [h, hc]
      · simpa [h] using hstate t0 ht0
  | setCategories payload => exact hstate
  | addCategory payload => exact hstate
  | updateCategory payload => exact hstate
  | deleteCategory id => exact hstate
  | setSettings payload => exact hstate
  | updateSettings payload => exact hstate
  | setUIState payload => exact hstate
  | openTaskForm payload => exact hstate
  | closeTaskForm => exact hstate
  | openCategoryManager => exact hstate
  | closeCategoryManager => exact hstate
  | setFilter payload => exact hstate

/-- C1 (witness): the amended preservation theorem applied at a concrete
state and action. -/
theorem appReducer_preserves_completedAt_invariant_witness :
    TaskInvariant (appReducer exState1 (.deleteTask "t1") 5).tasks :=
  appReducer_preserves_completedAt_invariant exState1 (.deleteTask "t1") 5
    (by decide) (by trivial)

/-- The reducer's UPDATE_TASK_STATUS with a provided comment behaves exactly
like the storage-layer updateTaskStatus with that comment. -/
theorem appReducer_updateTaskStatus_agrees (s : AppState) (taskId : String)
    (st : TaskStatus) (comment : String) (now : Nat) :
    (appReducer s (.updateTaskStatus taskId st (some comment)) now).tasks =
      TaskStorage.updateTaskStatus s.tasks taskId st comment now := by
  have hjs : jsOrEmpty (some comment) = comment := by
    by_cases h : comment = "" <;> simp [jsOrEmpty, h]
  simp only [appReducer, TaskStorage.updateTaskStatus, hjs]

/-- C2: the status-transition operation on any task list, for the task at any
position whose id matches: transitioning to completed stamps completedAt with
the (non-null) current time and stores the provided comment; transitioning to
any other status clears completedAt and leaves completionComment unchanged.
The reducer's UPDATE_TASK_STATUS case produces exactly the same task list. -/
theorem updateTaskStatus_completedAt_comment_spec (tasks : List Task) (taskId : String)
    (st : TaskStatus) (comment : String) (now : Nat) :
    (TaskStorage.updateTaskStatus tasks taskId st comment now).length = tasks.length
  ∧ (∀ i (hi : i < tasks.length)
      (hi2 : i < (TaskStorage.updateTaskStatus tasks taskId st comment now).length),
      (tasks.get ⟨i, hi⟩).id = taskId →
      ((st = .completed →
        ((TaskStorage.updateTaskStatus tasks taskId st comment now).get ⟨i, hi2⟩).completedAt
            = some now
        ∧ ((TaskStorage.updateTaskStatus tasks taskId st comment now).get ⟨i, hi2⟩).completedAt
            ≠ none
        ∧ ((TaskStorage.updateTaskStatus tasks taskId st comment now).get
            ⟨i, hi2⟩).completionComment = comment)
      ∧ (st ≠ .completed →
        ((TaskStorage.updateTaskStatus tasks taskId st comment now).get ⟨i, hi2⟩).completedAt
            = none
        ∧ ((TaskStorage.updateTaskStatus tasks taskId st comment now).get
            ⟨i, hi2⟩).completionComment = (tasks.get ⟨i, hi⟩).completionComment)))
  ∧ (∀ s : AppState, s.tasks = tasks →
      (appReducer s (.updateTaskStatus taskId st (some comment)) now).tasks =
        TaskStorage.updateTaskStatus tasks taskId st comment now) := by
  refine ⟨by simp [TaskStorage.updateTaskStatus], ?_, ?_⟩
  · intro i hi hi2 hid
    simp only [List.get_eq_getElem] at hid
    constructor
    · intro hst
      simp [TaskStorage.updateTaskStatus, List.get_eq_getElem, hid, hst]
    · intro hst
      simp [TaskStorage.updateTaskStatus, List.get_eq_getElem, hid, hst]
  · intro s hs
    rw [← hs]
    exact appReducer_updateTaskStatus_agrees s taskId st comment now

/-- C2 (witness): the status-transition theorem applied to a concrete
one-task list, completing task t1 with a concrete comment. -/
theorem updateTaskStatus_completedAt_comment_spec_witness :
    ((TaskStorage.updateTaskStatus [exTask1] "t1" .completed "done" 9).get
      ⟨0, by decide⟩).completedAt = some 9 :=
  (((updateTaskStatus_completedAt_comment_spec [exTask1] "t1" .completed "done" 9).2.1
    0 (by decide) (by decide) (by decide)).1 rfl).1

/-- C6: the REORDER_TASKS case replaces the state's task list with exactly
the caller-supplied payload and leaves every other part of the state alone.
The payload is universally quantified and unvalidated: in particular the
equation holds when the payload omits tasks present in the previous list. -/
theorem reorderTasks_action_replaces_list (s : AppState) (l : List Task) (now : Nat) :
    (appReducer s (.reorderTasks l) now).tasks = l
  ∧ (appReducer s (.reorderTasks l) now).categories = s.categories
  ∧ (appReducer s (.reorderTasks l) now).settings = s.settings
  ∧ (appReducer s (.reorderTasks l) now).ui = s.ui :=
  ⟨rfl, rfl, rfl, rfl⟩

/-- C10: the storage-layer reorder renumbers: it keeps the length, and the
element at position i equals the input's element at position i with its order
field replaced by i and its updatedAt refreshed — whereas the reducer's
REORDER_TASKS case stores the payload (with its order fields) verbatim. -/
theorem storage_reorder_renumbers (l : List Task) (now : Nat) (s : AppState) :
    (TaskStorage.reorderTasks l now).length = l.length
  ∧ (∀ i (hi : i < l.length) (hi2 : i < (TaskStorage.reorderTasks l now).length),
      (TaskStorage.reorderTasks l now).get ⟨i, hi2⟩ =
        { l.get ⟨i, hi⟩ with order := i, updatedAt := now })
  ∧ (appReducer s (.reorderTasks l) now).tasks = l := by
  refine ⟨by simp [TaskStorage.reorderTasks], ?_, rfl⟩
  intro i hi hi2
  simp [TaskStorage.reorderTasks, List.get_eq_getElem, List.getElem_enum]

/-- C10 (witness): the renumbering theorem applied to a concrete singleton
list whose task has order 42; position 0 is renumbered to 0. -/
theorem storage_reorder_renumbers_witness :
    (TaskStorage.reorderTasks [{ exTask1 with order := 42 }] 7).get ⟨0, by decide⟩ =
      { exTask1 with order := 0, updatedAt := 7 } :=
  (storage_reorder_renumbers [{ exTask1 with order := 42 }] 7 exState1).2.1
    0 (by decide) (by decide)

/-- Task A of the spec's sorting example: low priority, insertion order 0. -/
def taskA : Task :=
  { id := "a"
    title := "A"
    description := ""
    priority := .low
    category := "default"
    status := .todo
    completionComment := ""
    createdAt := 0
    updatedAt := 0
    completedAt := none
    order := 0
    tags := [] }

/-- Task B of the spec's sorting example: high priority, insertion order 1. -/
def taskB : Task :=
  { id := "b"
    title := "B"
    description := ""
    priority := .high
    category := "default"
    status := .todo
    completionComment := ""
    createdAt := 0
    updatedAt := 0
    completedAt := none
    order := 1
    tags := [] }

/-- C7: on the two example tasks with no active filter, showCompleted on and
sortBy = priority, the derived view orders high before low under desc and low
before high under asc. -/
theorem priority_sort_example :
    filteredTasks [taskA, taskB] initialFilter
        { defaultSettings with sortBy := .priority, sortOrder := .desc } = [taskB, taskA]
  ∧ filteredTasks [taskA, taskB] initialFilter
        { defaultSettings with sortBy := .priority, sortOrder := .asc } = [taskA, taskB] := by
  constructor <;> decide

/-- Concrete valid CreateTaskInput whose status field is in-progress. -/
def exInputInProgress : CreateTaskInput :=
  { title := "X"
    description := ""
    priority := .medium
    category := "default"
    status := .inProgress
    completionComment := ""
    tags := [] }

/-- C4 (counterexample): CreateTaskInput includes the status field and
createTask copies it into the produced task, so the valid input with status
in-progress produces a task whose status is not todo, contradicting the
claim that every valid CreateTaskInput yields status = todo. -/
theorem createTask_status_not_forced_todo :
    (createTask exInputInProgress (randomUUID 0) 5).status ≠ .todo := by
  decide

/-- C4 (amended): for every valid CreateTaskInput and distinct creation
events, the produced Task carries the freshly generated identifier — which is
non-empty and distinct from that of any other creation event — has
completedAt = null, and has status equal to the input's status field (todo
exactly when the caller supplies todo, as the task form does; not forced by
createTask itself). -/
theorem createTask_spec_amended (input input2 : CreateTaskInput) (m n now now2 : Nat)
    (hmn : m ≠ n) :
    (createTask input (randomUUID n) now).id = randomUUID n
  ∧ (createTask input (randomUUID n) now).id ≠ ""
  ∧ (createTask input (randomUUID n) now).id ≠ (createTask input2 (randomUUID m) now2).id
  ∧ (createTask input (randomUUID n) now).completedAt = none
  ∧ (createTask input (randomUUID n) now).status = input.status := by
  refine ⟨rfl, ?_, ?_, rfl, rfl⟩
  · intro h
    have := congrArg (fun s => s.data.length) h
    simp [createTask, randomUUID] at this
  · intro h
    apply hmn
    have := congrArg (fun s => s.data.length) h
    simpa [createTask, randomUUID] using this.symm

/-- C4 (witness): the amended creation theorem at concrete creation events 0
and 1 with the concrete in-progress input. -/
theorem createTask_spec_amended_witness :
    (createTask exInputInProgress (randomUUID 1) 5).id ≠
      (createTask exInputInProgress (randomUUID 0) 6).id :=
  (createTask_spec_amended exInputInProgress exInputInProgress 0 1 5 6 (by decide)).2.2.1

/-- C9: the progress-report formatter is total.  With totalTasks = 0 the
guard short-circuits the division and the reported completion rate is 0 (and
the report text carries the rate section with 0%); with totalTasks positive
the rate is round(completedTasks / totalTasks * 100), which moreover equals
the total natural-number expression (200c + t) / (2t). -/
theorem formatProgressReport_rate_spec (t c i : Nat) :
    completionRate 0 c = 0
  ∧ (∃ pre suf : String, formatProgressReport 0 c i = pre ++ "🎯 達成率: 0%" ++ suf)
  ∧ (0 < t → completionRate t c = (((200 * c + t) / (2 * t) : Nat) : Int))
  ∧ (0 < t → completionRate t c = round ((c : ℚ) / (t : ℚ) * 100)) := by
  refine ⟨by simp [completionRate], ?_, ?_, ?_⟩
  · refine ⟨"📊 今日の進捗報告\n" ++ "✅ 完了: " ++ toString c ++ "件\n" ++
      "⚡ 実行中: " ++ toString i ++ "件\n" ++ "📝 全体: " ++ toString (0 : Nat) ++ "件\n",
      "\n\n" ++ "#TodoApp #生産性向上 #進捗報告", ?_⟩
    have h0 : completionRate 0 c = 0 := by simp [completionRate]
    have hts : toString (completionRate 0 c) = "0" := by rw [h0]; rfl
    simp only [formatProgressReport, hts, String.append_assoc]
    rfl
  · intro ht
    have htq : (0 : ℚ) < (t : ℚ) := by exact_mod_cast ht
    have hne : (t : ℚ) ≠ 0 := ne_of_gt htq
    simp only [completionRate, if_pos ht, round_eq]
    have hq : (c : ℚ) / (t : ℚ) * 100 + 1 / 2 =
        (((200 * c + t : ℕ) : ℤ) : ℚ) / ((2 * t : ℕ) : ℚ) := by
      push_cast
      field_simp
      ring
    rw [hq, Rat.floor_intCast_div_natCast]
    rw [← Int.natCast_div]
  · intro ht
    simp [completionRate, if_pos ht]

/-- C9 (witness): the rate theorem at totalTasks = 3, completedTasks = 2:
the guarded rate equals (200 * 2 + 3) / (2 * 3) = 67. -/
theorem formatProgressReport_rate_spec_witness :
    (0 : Nat) < 3 ∧ completionRate 3 2 = (((200 * 2 + 3) / (2 * 3) : Nat) : Int) :=
  ⟨by decide, ((formatProgressReport_rate_spec 3 2 0).2.2.1 (by decide))⟩

/-- The per-task reassignment dispatches of deleteCategory leave the
category list untouched. -/
theorem reassign_foldl_categories (now : Nat) (L : List Task) :
    ∀ st : AppState,
      (L.foldl (fun s t => appReducer s (.updateTask t.id reassignToDefault) now) st).categories
        = st.categories := by
  induction L with
  | nil => intro st; rfl
  | cons t L ih => intro st; exact ih (appReducer st (.updateTask t.id reassignToDefault) now)

/-- The per-task reassignment dispatches of deleteCategory preserve the
length of the task list. -/
theorem reassign_foldl_length (now : Nat) (L : List Task) :
    ∀ st : AppState,
      (L.foldl (fun s t => appReducer s (.updateTask t.id reassignToDefault) now) st).tasks.length
        = st.tasks.length := by
  induction L with
  | nil => intro st; rfl
  | cons t L ih =>
      intro st
      have hstep : (appReducer st (.updateTask t.id reassignToDefault) now).tasks.length
          = st.tasks.length := by simp [appReducer]
      exact (ih (appReducer st (.updateTask t.id reassignToDefault) now)).trans hstep

/-- Pointwise effect of the reassignment dispatches: task ids are preserved,
and a position whose task already has category 'default' — or whose id occurs
among the dispatched tasks — ends with category 'default'. -/
theorem reassign_foldl_spec (now : Nat) (L : List Task) :
    ∀ (st : AppState) (i : Nat) (hi : i < st.tasks.length)
      (hi2 : i <
        (L.foldl (fun s t => appReducer s (.updateTask t.id reassignToDefault) now) st).tasks.length),
      (((L.foldl (fun s t => appReducer s (.updateTask t.id reassignToDefault) now) st).tasks.get
          ⟨i, hi2⟩).id = (st.tasks.get ⟨i, hi⟩).id)
    ∧ (((st.tasks.get ⟨i, hi⟩).category = "default"
          ∨ ∃ t ∈ L, t.id = (st.tasks.get ⟨i, hi⟩).id) →
        ((L.foldl (fun s t => appReducer s (.updateTask t.id reassignToDefault) now) st).tasks.get
          ⟨i, hi2⟩).category = "default") := by
  induction L with
  | nil =>
      intro st i hi hi2
      refine ⟨rfl, ?_⟩
      rintro (h | ⟨t, ht, _⟩)
      · exact h
      · exact absurd ht (List.not_mem_nil t)
  | cons t L ih =>
      intro st i hi hi2
      have hlen : (appReducer st (.updateTask t.id reassignToDefault) now).tasks.length
          = st.tasks.length := by
        simp [appReducer]
      have hi' : i < (appReducer st (.updateTask t.id reassignToDefault) now).tasks.length :=
        hlen ▸ hi
      have hi2' : i < (L.foldl
          (fun s t2 => appReducer s (.updateTask t2.id reassignToDefault) now)
          (appReducer st (.updateTask t.id reassignToDefault) now)).tasks.length := hi2
      obtain ⟨hid, hcat⟩ :=
        ih (appReducer st (.updateTask t.id reassignToDefault) now) i hi' hi2'
      have hget : (appReducer st (.updateTask t.id reassignToDefault) now).tasks.get ⟨i, hi'⟩ =
          (if (st.tasks.get ⟨i, hi⟩).id = t.id
            then { applyTaskUpdates (st.tasks.get ⟨i, hi⟩) reassignToDefault with
                    updatedAt := now }
            else st.tasks.get ⟨i, hi⟩) := by
        simp [appReducer, List.get_eq_getElem]
      have hstepid : ((appReducer st (.updateTask t.id reassignToDefault) now).tasks.get
          ⟨i, hi'⟩).id = (st.tasks.get ⟨i, hi⟩).id := by
        rw [hget]
        split <;> simp [applyTaskUpdates, reassignToDefault]
      refine ⟨hid.trans hstepid, ?_⟩
      rintro (h | ⟨t2, ht2, hteq⟩)
      · refine hcat (Or.inl ?_)
        rw [hget]
        simp only [List.get_eq_getElem] at h
        split <;> simp [applyTaskUpdates, reassignToDefault, h]
      · rcases List.mem_cons.mp ht2 with rfl | hmem
        · refine hcat (Or.inl ?_)
          rw [hget, if_pos hteq.symm]
          simp [applyTaskUpdates, reassignToDefault]
        · exact hcat (Or.inr ⟨t2, hmem, hteq.trans hstepid.symm⟩)

/-- C3: deleting a non-default category c reassigns every task referencing c
to the 'default' category (position by position) and removes c from the
application state's category list; deleting the reserved 'default' category
is rejected before any dispatch (no new state is produced) and the
storage-layer deleteCategory likewise leaves its stored list unchanged. -/
theorem deleteCategory_reassigns_and_removes (s : AppState) (c : String) (now : Nat)
    (cats : List Category) :
    (c = "default" → UseCategories.deleteCategory s c now = none
      ∧ CategoryStorage.deleteCategory cats "default" = cats)
  ∧ (c ≠ "default" → ∃ s2, UseCategories.deleteCategory s c now = some s2
      ∧ s2.categories = s.categories.filter (fun cat => cat.id != c)
      ∧ s2.tasks.length = s.tasks.length
      ∧ (∀ i (hi : i < s.tasks.length) (hi2 : i < s2.tasks.length),
          (s.tasks.get ⟨i, hi⟩).category = c →
          (s2.tasks.get ⟨i, hi2⟩).category = "default")) := by
  constructor
  · rintro rfl
    exact ⟨by simp [UseCategories.deleteCategory], by simp [CategoryStorage.deleteCategory]⟩
  · intro hc
    refine ⟨appReducer ((s.tasks.filter fun task => task.category == c).foldl
        (fun st task => appReducer st (.updateTask task.id reassignToDefault) now) s)
        (.deleteCategory c) now, ?_, ?_, ?_, ?_⟩
    · simp [UseCategories.deleteCategory, hc]
    · have hcats := reassign_foldl_categories now
        (s.tasks.filter fun task => task.category == c) s
      show List.filter (fun category => category.id != c)
        ((s.tasks.filter fun task => task.category == c).foldl
          (fun st task => appReducer st (.updateTask task.id reassignToDefault) now)
          s).categories = s.categories.filter (fun cat => cat.id != c)
      rw [hcats]
    · exact reassign_foldl_length now (s.tasks.filter fun task => task.category == c) s
    · intro i hi hi2 hcati
      have hi2' : i < ((s.tasks.filter fun task => task.category == c).foldl
          (fun st task => appReducer st (.updateTask task.id reassignToDefault) now)
          s).tasks.length := hi2
      refine (reassign_foldl_spec now (s.tasks.filter fun task => task.category == c)
        s i hi hi2').2 (Or.inr ?_)
      refine ⟨s.tasks.get ⟨i, hi⟩, ?_, rfl⟩
      refine List.mem_filter.mpr ⟨List.get_mem s.tasks i hi, ?_⟩
      simp only [List.get_eq_getElem] at hcati
      simp [hcati]

/-- Category fixture referenced by the C3 witness. -/
def workCategory : Category :=
  { id := "work"
    name := "Work"
    color := "#70a1ff"
    description := none
    createdAt := 0
    taskCount := 1 }

/-- The reserved default category as seeded by useCategoryStorage. -/
def defaultCategory : Category :=
  { id := "default"
    name := "未分類"
    color := "#a4b0be"
    description := some "デフォルトカテゴリー"
    createdAt := 0
    taskCount := 0 }

/-- Concrete task referencing the work category. -/
def exTaskWork : Task := { exTask1 with id := "tw", category := "work" }

/-- Concrete state holding one work-category task and two categories. -/
def exStateWork : AppState :=
  { tasks := [exTaskWork]
    categories := [defaultCategory, workCategory]
    settings := defaultSettings
    ui := initialUIState }

/-- C3 (witness): the deletion theorem at the concrete work-category state. -/
theorem deleteCategory_reassigns_and_removes_witness :
    ∃ s2, UseCategories.deleteCategory exStateWork "work" 3 = some s2
      ∧ s2.categories = exStateWork.categories.filter (fun cat => cat.id != "work")
      ∧ s2.tasks.length = exStateWork.tasks.length
      ∧ (∀ i (hi : i < exStateWork.tasks.length) (hi2 : i < s2.tasks.length),
          (exStateWork.tasks.get ⟨i, hi⟩).category = "work" →
          (s2.tasks.get ⟨i, hi2⟩).category = "default") :=
  (deleteCategory_reassigns_and_removes exStateWork "work" 3 []).2 (by decide)

/-- The modelled localeCompare is non-positive exactly when the first string
is lexicographically no greater than the second. -/
theorem localeCompare_nonpos (a b : String) : localeCompare a b ≤ 0 ↔ a ≤ b := by
  unfold localeCompare
  split_ifs with h1 h2
  · exact iff_of_true (by norm_num) (le_of_lt h1)
  · exact iff_of_false (by norm_num) (not_le.mpr h2)
  · exact iff_of_true le_rfl (not_lt.mp h2)

/-- The modelled localeCompare is non-negative exactly when the second string
is lexicographically no greater than the first. -/
theorem localeCompare_nonneg (a b : String) : 0 ≤ localeCompare a b ↔ b ≤ a := by
  unfold localeCompare
  split_ifs with h1 h2
  · exact iff_of_false (by norm_num) (not_le.mpr h1)
  · exact iff_of_true (by norm_num) (le_of_lt h2)
  · exact iff_of_true le_rfl (not_lt.mp h1)

/-- The comparator-induced order is total, for every sort key and direction:
the ECMAScript comparator is consistent. -/
theorem taskLe_total (s : Settings) : ∀ a b, taskLe s a b ∨ taskLe s b a := by
  intro a b
  unfold taskLe taskComparison
  cases hb : s.sortBy <;> cases ho : s.sortOrder <;> simp only [neg_nonpos] <;>
    first
    | omega
    | (rcases le_total a.title b.title with h | h
       · first
         | exact Or.inl ((localeCompare_nonpos a.title b.title).mpr h)
         | exact Or.inr ((localeCompare_nonneg b.title a.title).mpr h)
       · first
         | exact Or.inr ((localeCompare_nonpos b.title a.title).mpr h)
         | exact Or.inl ((localeCompare_nonneg a.title b.title).mpr h))

/-- The comparator-induced order is transitive, for every sort key and
direction. -/
theorem taskLe_trans (s : Settings) :
    ∀ a b c, taskLe s a b → taskLe s b c → taskLe s a c := by
  intro a b c
  unfold taskLe taskComparison
  cases hb : s.sortBy <;> cases ho : s.sortOrder <;> simp only [neg_nonpos] <;>
    intro h1 h2 <;>
    first
    | omega
    | exact (localeCompare_nonpos a.title c.title).mpr
        (le_trans ((localeCompare_nonpos a.title b.title).mp h1)
          ((localeCompare_nonpos b.title c.title).mp h2))
    | exact (localeCompare_nonneg a.title c.title).mpr
        (le_trans ((localeCompare_nonneg b.title c.title).mp h2)
          ((localeCompare_nonneg a.title b.title).mp h1))

/-- The combined visibility predicate of the five filter passes, associated
the way the composed List.filter passes combine. -/
def passesFilters (filter : Filter) (settings : Settings) : Task → Bool := fun t =>
  (if settings.showCompleted then true else t.status != .completed) &&
  ((if jsTrim filter.searchQuery = "" then true
    else matchesSearch (jsToLower filter.searchQuery) t) &&
  ((match filter.priority with | none => true | some p => t.priority == p) &&
  ((if filter.category = "all" then true else t.category == filter.category) &&
  (match filter.status with | none => true | some st => t.status == st))))

/-- The five sequential filter passes equal one pass of the combined
visibility predicate. -/
theorem applyFilters_eq_filter (tasks : List Task) (f : Filter) (s : Settings) :
    applyFilters tasks f s = tasks.filter (passesFilters f s) := by
  delta applyFilters passesFilters
  cases hst : f.status <;>
    by_cases hcat : f.category = "all" <;>
    cases hpr : f.priority <;>
    by_cases hse : jsTrim f.searchQuery = "" <;>
    by_cases hsh : s.showCompleted <;>
    simp [hst, hcat, hpr, hse, hsh, List.filter_filter, List.filter_true]

/-- C5: the derived view is deterministic (same inputs, same ordered output),
its output passes all its own filter passes unchanged, and re-running the
whole computation on its own output returns the output unchanged. -/
theorem filteredTasks_deterministic_idempotent (tasks : List Task) (f : Filter)
    (s : Settings) :
    filteredTasks tasks f s = filteredTasks tasks f s
  ∧ applyFilters (filteredTasks tasks f s) f s = filteredTasks tasks f s
  ∧ filteredTasks (filteredTasks tasks f s) f s = filteredTasks tasks f s := by
  letI : IsTotal Task (taskLe s) := ⟨taskLe_total s⟩
  letI : IsTrans Task (taskLe s) := ⟨taskLe_trans s⟩
  have hsorted : List.Sorted (taskLe s) (filteredTasks tasks f s) :=
    List.sorted_insertionSort (taskLe s) (applyFilters tasks f s)
  have hfix : applyFilters (filteredTasks tasks f s) f s = filteredTasks tasks f s := by
    rw [applyFilters_eq_filter]
    apply List.filter_eq_self.mpr
    intro a ha
    have ha2 : a ∈ applyFilters tasks f s :=
      (List.mem_insertionSort (taskLe s)).mp ha
    rw [applyFilters_eq_filter] at ha2
    exact (List.mem_filter.mp ha2).2
  refine ⟨rfl, hfix, ?_⟩
  show List.insertionSort (taskLe s) (applyFilters (filteredTasks tasks f s) f s)
    = filteredTasks tasks f s
  rw [hfix]
  exact hsorted.insertionSort_eq

/-- A string's characters are an infix of any extension to the right. -/
theorem data_prefix_append (x y : String) : x.data <:+: (x ++ y).data :=
  ⟨[], y.data, by simp⟩

/-- A string's characters are an infix of any extension to the left. -/
theorem data_suffix_append (x y : String) : y.data <:+: (x ++ y).data :=
  ⟨x.data, [], by simp⟩

/-- Every member string occurs inside the space-join of the list. -/
theorem mem_data_infix_joinSpace (u : String) (l : List String) (hu : u ∈ l) :
    u.data <:+: (joinSpace l).data := by
  induction l with
  | nil => cases hu
  | cons x xs ih =>
      rcases List.mem_cons.mp hu with rfl | hmem
      · cases xs with
        | nil => exact ⟨[], [], by simp [joinSpace]⟩
        | cons y ys =>
            exact ⟨[], (" " ++ joinSpace (y :: ys)).data, by simp [joinSpace]⟩
      · cases xs with
        | nil => cases hmem
        | cons y ys =>
            obtain ⟨s1, t1, hh⟩ := ih hmem
            refine ⟨(x ++ " ").data ++ s1, t1, ?_⟩
            simp only [joinSpace, String.data_append, List.append_assoc]
            rw [← hh]
            simp [List.append_assoc]

/-- Character-level decomposition of the share text: header, optional
hashtag block, optional comment block, fixed suffix. -/
theorem formatTaskForShare_data (t : Task) :
    (formatTaskForShare t).data =
      (statusConfig t.status).emoji.data ++ " ".data ++ t.title.data ++ " - ".data ++
      (statusConfig t.status).label.data ++
      (if 0 < t.tags.length then
        "\n\n".data ++ (joinSpace (t.tags.map fun tag => "#" ++ tag)).data else []) ++
      (if t.status = .completed ∧ t.completionComment ≠ "" then
        "\n\n💭 ".data ++ t.completionComment.data else []) ++
      " #TodoApp #生産性向上".data := by
  simp only [formatTaskForShare]
  by_cases h1 : 0 < t.tags.length <;>
    by_cases h2 : t.status = .completed ∧ t.completionComment ≠ "" <;>
    simp [h1, h2, String.data_append, List.append_assoc]

/-- Completed example task of the spec: title Report, comment, tag work. -/
def reportTask : Task :=
  { id := "r1"
    title := "Report"
    description := ""
    priority := .medium
    category := "default"
    status := .completed
    completionComment := "done early"
    createdAt := 0
    updatedAt := 0
    completedAt := some 1
    order := 0
    tags := ["work"] }

/-- C8: the share text always starts with the emoji/title/status-label
header and always ends with the fixed application hashtag suffix; it
contains a hashtag per task tag; it contains the appended comment exactly
when the task is completed with a non-empty comment, in both directions: the
character-level decomposition pins the text to header, a hashtag block
present exactly when the tag list is non-empty, a comment block present
exactly when the comment condition holds, and the suffix — so when the
comment condition fails the text contains no comment block whatever the
tags, and when the tag list is empty it contains no hashtag block whatever
the status (and when neither optional block is active the text is exactly
header plus suffix); nothing is truncated.  On the concrete completed Report
task the full text is the expected one, with header, #work and the comment
in that relative order. -/
theorem formatTaskForShare_spec (t : Task) :
    (∃ rest : String, formatTaskForShare t =
      (statusConfig t.status).emoji ++ " " ++ t.title ++ " - " ++
        (statusConfig t.status).label ++ rest)
  ∧ (∃ pre : String, formatTaskForShare t = pre ++ " #TodoApp #生産性向上")
  ∧ (∀ tag ∈ t.tags, ("#" ++ tag).data <:+: (formatTaskForShare t).data)
  ∧ (t.status = .completed → t.completionComment ≠ "" →
      ("💭 " ++ t.completionComment).data <:+: (formatTaskForShare t).data)
  ∧ (t.tags = [] → ¬(t.status = .completed ∧ t.completionComment ≠ "") →
      formatTaskForShare t =
        (statusConfig t.status).emoji ++ " " ++ t.title ++ " - " ++
          (statusConfig t.status).label ++ " #TodoApp #生産性向上")
  ∧ ((formatTaskForShare t).data =
      (statusConfig t.status).emoji.data ++ " ".data ++ t.title.data ++ " - ".data ++
      (statusConfig t.status).label.data ++
      (if 0 < t.tags.length then
        "\n\n".data ++ (joinSpace (t.tags.map fun tag => "#" ++ tag)).data else []) ++
      (if t.status = .completed ∧ t.completionComment ≠ "" then
        "\n\n💭 ".data ++ t.completionComment.data else []) ++
      " #TodoApp #生産性向上".data)
  ∧ (¬(t.status = .completed ∧ t.completionComment ≠ "") →
      (formatTaskForShare t).data =
        (statusConfig t.status).emoji.data ++ " ".data ++ t.title.data ++ " - ".data ++
        (statusConfig t.status).label.data ++
        (if 0 < t.tags.length then
          "\n\n".data ++ (joinSpace (t.tags.map fun tag => "#" ++ tag)).data else []) ++
        " #TodoApp #生産性向上".data)
  ∧ (t.tags = [] →
      (formatTaskForShare t).data =
        (statusConfig t.status).emoji.data ++ " ".data ++ t.title.data ++ " - ".data ++
        (statusConfig t.status).label.data ++
        (if t.status = .completed ∧ t.completionComment ≠ "" then
          "\n\n💭 ".data ++ t.completionComment.data else []) ++
        " #TodoApp #生産性向上".data)
  ∧ formatTaskForShare reportTask =
      "✅ Report - 完了\n\n#work\n\n💭 done early #TodoApp #生産性向上" := by
  refine ⟨?_, ⟨_, rfl⟩, ?_, ?_, ?_, formatTaskForShare_data t, ?_, ?_, by decide⟩
  · simp only [formatTaskForShare]
    split <;> split <;> (simp only [String.append_assoc]; exact ⟨_, rfl⟩)
  · intro tag htag
    have h1 : 0 < t.tags.length := List.length_pos_of_mem htag
    obtain ⟨s1, t1, hh⟩ :=
      mem_data_infix_joinSpace ("#" ++ tag) (t.tags.map fun tg => "#" ++ tg)
        (List.mem_map.mpr ⟨tag, htag, rfl⟩)
    rw [formatTaskForShare_data t, if_pos h1]
    by_cases h2 : t.status = .completed ∧ t.completionComment ≠ ""
    · rw [if_pos h2]
      refine ⟨(statusConfig t.status).emoji.data ++ " ".data ++ t.title.data ++
        " - ".data ++ (statusConfig t.status).label.data ++ "\n\n".data ++ s1,
        t1 ++ ("\n\n💭 ".data ++ t.completionComment.data) ++
          " #TodoApp #生産性向上".data, ?_⟩
      rw [← hh]
      simp [List.append_assoc]
    · rw [if_neg h2]
      refine ⟨(statusConfig t.status).emoji.data ++ " ".data ++ t.title.data ++
        " - ".data ++ (statusConfig t.status).label.data ++ "\n\n".data ++ s1,
        t1 ++ " #TodoApp #生産性向上".data, ?_⟩
      rw [← hh]
      simp [List.append_assoc]
  · intro hst hcm
    have h2 : t.status = .completed ∧ t.completionComment ≠ "" := ⟨hst, hcm⟩
    have hsplit : ("\n\n💭 " : String).data = "\n\n".data ++ "💭 ".data := rfl
    rw [formatTaskForShare_data t, if_pos h2]
    by_cases h1 : 0 < t.tags.length
    · rw [if_pos h1]
      refine ⟨(statusConfig t.status).emoji.data ++ " ".data ++ t.title.data ++
        " - ".data ++ (statusConfig t.status).label.data ++ "\n\n".data ++
        (joinSpace (t.tags.map fun tag => "#" ++ tag)).data ++ "\n\n".data,
        " #TodoApp #生産性向上".data, ?_⟩
      simp [hsplit, String.data_append, List.append_assoc]
    · rw [if_neg h1]
      refine ⟨(statusConfig t.status).emoji.data ++ " ".data ++ t.title.data ++
        " - ".data ++ (statusConfig t.status).label.data ++ "\n\n".data,
        " #TodoApp #生産性向上".data, ?_⟩
      simp [hsplit, String.data_append, List.append_assoc]
  · intro htags h2
    simp [formatTaskForShare, htags, h2, String.append_assoc]
  · intro h2
    rw [formatTaskForShare_data t, if_neg h2]
    simp [List.append_assoc]
  · intro htags
    have h1 : ¬ 0 < t.tags.length := by rw [htags]; simp
    rw [formatTaskForShare_data t, if_neg h1]
    simp [List.append_assoc]

/-- C8 (witness): the formatter theorem applied at the concrete completed
Report task, extracting the hashtag and comment containment facts. -/
theorem formatTaskForShare_spec_witness :
    (("#" ++ "work").data <:+: (formatTaskForShare reportTask).data)
  ∧ (("💭 " ++ "done early").data <:+: (formatTaskForShare reportTask).data)
  ∧ ((formatTaskForShare exTask1).data =
      (statusConfig exTask1.status).emoji.data ++ " ".data ++ exTask1.title.data ++
      " - ".data ++ (statusConfig exTask1.status).label.data ++
      (if 0 < exTask1.tags.length then
        "\n\n".data ++ (joinSpace (exTask1.tags.map fun tag => "#" ++ tag)).data else []) ++
      " #TodoApp #生産性向上".data) :=
  ⟨(formatTaskForShare_spec reportTask).2.2.1 "work" (by decide),
   (formatTaskForShare_spec reportTask).2.2.2.1 (by decide) (by decide),
   (formatTaskForShare_spec exTask1).2.2.2.2.2.2.1 (by decide)⟩

end TodoPlus
